import Mathlib

/-!
Shallow embedding of the yt-checker monitor (a Deno/TypeScript service) and
proofs about its check orchestration, alerting state machine, proxy-link
parsing and subscription handling.

Conventions of the embedding:
* JavaScript runtime primitives (atob, parseInt, String.split, URL parsing,
  JSON.parse, subprocess and network effects) are modelled either by faithful
  Lean implementations (atob, parseInt, split) or by explicit environment
  parameters supplied to the embedded functions.
* A JS exception is modelled as an `Except.error` / `Option.none` / a dedicated
  constructor of an outcome type, as noted at each definition.
* Machine numbers are modelled as `Nat`/`Int`; timestamps (Date.now()) as `Int`
  milliseconds.
-/

set_option maxHeartbeats 1000000

namespace YtChecker

/-!
String primitives. Lean's own `String.trim`, `String.splitOn` etc. are
defined by well-founded recursion and do not reduce inside the kernel, so
the operations the embedded code needs are implemented here by structural
recursion over the character list of the string.
-/

/-- Split a character list at every occurrence of a separator character
(semantics of `String.splitOn` / JS `split` for a one-character separator:
the empty list yields one empty piece). -/
def splitOnChar (sep : Char) : List Char → List (List Char)
  | [] => [[]]
  | c :: rest =>
    let r := splitOnChar sep rest
    if c = sep then [] :: r
    else
      match r with
      | [] => [[c]]
      | t :: ts => (c :: t) :: ts

/-- Split a character list at every character satisfying a predicate. -/
def splitPredL (p : Char → Bool) : List Char → List (List Char)
  | [] => [[]]
  | c :: rest =>
    let r := splitPredL p rest
    if p c then [] :: r
    else
      match r with
      | [] => [[c]]
      | t :: ts => (c :: t) :: ts

/-- Whether `pat` occurs as a contiguous sublist. -/
def containsL (pat : List Char) : List Char → Bool
  | [] => pat.isEmpty
  | c :: rest => pat.isPrefixOf (c :: rest) || containsL pat rest

/-- Remove the first occurrence of `pat` (JS `s.replace(pat, "")`). -/
def replaceFirstL (pat : List Char) : List Char → List Char
  | [] => []
  | c :: rest =>
    if pat.isPrefixOf (c :: rest) then (c :: rest).drop pat.length
    else c :: replaceFirstL pat rest

/-- Join pieces with a separator list. -/
def intercalateL (sep : List Char) : List (List Char) → List Char
  | [] => []
  | [x] => x
  | x :: y :: rest => x ++ sep ++ intercalateL sep (y :: rest)

/-- Trim whitespace from both ends. -/
def trimL (cs : List Char) : List Char :=
  ((cs.dropWhile Char.isWhitespace).reverse.dropWhile Char.isWhitespace).reverse

/-- String wrapper of `trimL` (JS `s.trim()`). -/
def jsTrim (s : String) : String := String.mk (trimL s.data)

/-- String wrapper of `splitOnChar` (JS `s.split(sep)`). -/
def jsSplitOnChar (sep : Char) (s : String) : List String :=
  (splitOnChar sep s.data).map String.mk

/-- String wrapper of `List.isPrefixOf` (JS `s.startsWith(pat)`). -/
def jsStartsWith (s pat : String) : Bool := pat.data.isPrefixOf s.data

/-- String wrapper of `intercalateL`. -/
def jsIntercalate (sep : String) (parts : List String) : String :=
  String.mk (intercalateL sep.data (parts.map String.data))

/-- JS string truthiness for `x || d` where `x` is a string or null:
null and the empty string fall back to the default. -/
def orDefault (o : Option String) (d : String) : String :=
  match o with
  | none => d
  | some s => if s = "" then d else s

/-- JS truthiness filter: null or the empty string become `none`. -/
def jsStr (o : Option String) : Option String :=
  match o with
  | none => none
  | some s => if s = "" then none else some s

/-- Decimal digits to a natural number. -/
def digitsToNat (cs : List Char) : Nat :=
  cs.foldl (fun n c => n * 10 + (c.toNat - 48)) 0

/-- Model of JS `parseInt(s)`: skip whitespace, optional sign, then the longest
digit prefix; `none` models the NaN result. -/
def jsParseInt (s : String) : Option Int :=
  let p : Bool × List Char :=
    match trimL s.data with
    | '-' :: cs => (true, cs)
    | '+' :: cs => (false, cs)
    | cs => (false, cs)
  let ds := p.2.takeWhile (fun c => c.isDigit)
  if ds.isEmpty then none
  else if p.1 then some (-(digitsToNat ds : Int)) else some ((digitsToNat ds : Int))

/-- Model of JS `s.replace(pat, "")` for a string pattern: removes the first
occurrence only. -/
def jsReplaceFirst (s pat : String) : String :=
  String.mk (replaceFirstL pat.data s.data)

/-- Model of JS `s.includes(pat)` for a non-empty literal pattern. -/
def containsSub (s pat : String) : Bool :=
  containsL pat.data s.data

/-- Last element of `s.trim().split(/\s+/)` as in the label extraction:
for a trimmed non-empty string these are its whitespace-separated tokens,
for the empty string JS yields `[""]` whose last element is `""`. -/
def jsSplitWsLast (s : String) : String :=
  let t := trimL s.data
  if t = [] then ""
  else
    String.mk ((((splitPredL Char.isWhitespace t).filter
      (fun x => x ≠ [])).getLastD []))

/-- Value of a base64 alphabet character. -/
def base64Val (c : Char) : Option Nat :=
  if 65 ≤ c.toNat ∧ c.toNat ≤ 90 then some (c.toNat - 65)
  else if 97 ≤ c.toNat ∧ c.toNat ≤ 122 then some (c.toNat - 97 + 26)
  else if 48 ≤ c.toNat ∧ c.toNat ≤ 57 then some (c.toNat - 48 + 52)
  else if c = '+' then some 62
  else if c = '/' then some 63
  else none

/-- Decode a list of base64 sextet values into bytes. -/
def b64DecodeSextets : List Nat → List Nat
  | a :: b :: c :: d :: rest =>
      (a * 4 + b / 16) :: ((b % 16) * 16 + c / 4) :: ((c % 4) * 64 + d) ::
        b64DecodeSextets rest
  | [a, b] => [a * 4 + b / 16]
  | [a, b, c] => [a * 4 + b / 16, (b % 16) * 16 + c / 4]
  | _ => []

/-- Strip up to two trailing padding characters when the length is a multiple
of four (the forgiving-base64 preprocessing used by atob). -/
def stripPad (cs : List Char) : List Char :=
  if cs.length % 4 = 0 then
    let cs1 := if cs.getLast? = some '=' then cs.dropLast else cs
    if cs1.getLast? = some '=' then cs1.dropLast else cs1
  else cs

/-- Model of JS `atob`: forgiving base64 decode to a byte string; `none`
models the thrown InvalidCharacterError. -/
def jsAtob (s : String) : Option String :=
  let cs := s.data.filter (fun c =>
    !(c = ' ' || c = '\t' || c = '\n' || c = '\x0d' || c = '\x0c'))
  let cs := stripPad cs
  if cs.length % 4 = 1 then none
  else
    match cs.mapM base64Val with
    | none => none
    | some vals => some (String.mk ((b64DecodeSextets vals).map (fun b => Char.ofNat b)))

/-- Concatenation of per-element result lists, as produced by the result-push
loops of the source. -/
def flatMapL {α β : Type} (f : α → List β) : List α → List β
  | [] => []
  | a :: t => f a ++ flatMapL f t

/-! ## src/checker.ts : VideoChecker -/

/-- One entry of `config.videos`. -/
structure VideoConfig where
  id : String
  title : String
  weight : Nat
  deriving DecidableEq

/-- The CheckResult record produced by the checker (src/types.ts). -/
structure CheckResult where
  node_label : Option String
  video_id : String
  status : String
  success : Bool
  duration_ms : Nat
  error : Option String
  timestamp : String
  deriving DecidableEq

/-- Outcome of one yt-dlp invocation, supplied by the environment:
either the subprocess finished with an exit code and output streams, or an
exception was thrown while running it. -/
inductive ProbeOutcome where
  | exit (code : Int) (stdout : String) (stderr : String)
  | exn (msg : String)

/-- Environment of one `checkVideo` call: the subprocess outcome plus the
observed wall-clock duration and timestamp. -/
structure ProbeEnv where
  outcome : ProbeOutcome
  duration_ms : Nat
  timestamp : String

/-- `VideoChecker.parseError`: ordered substring matches over the yt-dlp
stderr text, falling back to the first ERROR/WARNING line, then to
"Unknown error". -/
def parseError (errorOutput : String) : String :=
  if containsSub errorOutput "HTTP Error 403" then "HTTP 403: Video unavailable (access denied)"
  else if containsSub errorOutput "HTTP Error 404" then "HTTP 404: Video not found"
  else if containsSub errorOutput "Private video" then "Video is private"
  else if containsSub errorOutput "Video unavailable" then "Video unavailable"
  else if containsSub errorOutput "This video has been removed" then "Video has been removed"
  else if containsSub errorOutput "timeout" then "Connection timeout"
  else if containsSub errorOutput "Unable to connect" then "Proxy connection failed"
  else if containsSub errorOutput "SOCKS" then "SOCKS proxy error"
  else if containsSub errorOutput "Unable to extract" then "Unable to extract video data"
  else if containsSub errorOutput "Sign in to confirm your age" then "Age-restricted video"
  else
    match (jsSplitOnChar '\n' errorOutput).find? (fun line =>
        containsSub line "ERROR" || containsSub line "WARNING") with
    | some line => if jsTrim line = "" then "Unknown error" else jsTrim line
    | none => "Unknown error"

/-- `VideoChecker.checkVideo`: never throws — a zero exit code yields a
successful result, a non-zero code a failed result with the classified error,
and an exception a failed result carrying the exception message. -/
def checkVideo (nodeLabel : Option String) (env : String → ProbeEnv)
    (videoId : String) : CheckResult :=
  let e := env videoId
  match e.outcome with
  | ProbeOutcome.exit code _stdout stderr =>
      if code = 0 then
        { node_label := nodeLabel, video_id := videoId, status := "ok", success := true,
          duration_ms := e.duration_ms, error := none, timestamp := e.timestamp }
      else
        { node_label := nodeLabel, video_id := videoId, status := "failed", success := false,
          duration_ms := e.duration_ms, error := some (parseError stderr),
          timestamp := e.timestamp }
  | ProbeOutcome.exn msg =>
      { node_label := nodeLabel, video_id := videoId, status := "failed", success := false,
        duration_ms := e.duration_ms, error := some msg, timestamp := e.timestamp }

/-- `VideoChecker.checkAllVideos`: one probe per configured video
(`Promise.all` over `config.videos.map(...)`). -/
def checkAllVideos (videos : List VideoConfig) (nodeLabel : Option String)
    (env : String → ProbeEnv) : List CheckResult :=
  videos.map (fun v => checkVideo nodeLabel env v.id)

/-! ## src/xray.ts : XrayManager and the proxy-link parsers -/

/-- `tlsSettings` object. The vless/trojan parsers set `serverName` and
`fingerprint` to strings; the vmess parser emits no fingerprint and its
`serverName` may be absent (JS undefined). -/
structure TlsSettings where
  serverName : Option String
  fingerprint : Option String
  allowInsecure : Bool
  deriving DecidableEq

/-- `realitySettings` object. -/
structure RealitySettings where
  serverName : String
  fingerprint : String
  publicKey : String
  shortId : String
  spiderX : String
  deriving DecidableEq

/-- `wsSettings` object; `hostHeader` models the optional Host header entry. -/
structure WsSettings where
  path : String
  hostHeader : Option String
  deriving DecidableEq

/-- `grpcSettings` object. -/
structure GrpcSettings where
  serviceName : String
  deriving DecidableEq

/-- `httpSettings` object. -/
structure HttpSettings where
  host : List String
  path : String
  deriving DecidableEq

/-- `streamSettings` object: the network/security pair plus whichever
security- and transport-specific sub-objects the parser attached. -/
structure StreamSettings where
  network : String
  security : String
  tlsSettings : Option TlsSettings := none
  realitySettings : Option RealitySettings := none
  wsSettings : Option WsSettings := none
  grpcSettings : Option GrpcSettings := none
  httpSettings : Option HttpSettings := none
  deriving DecidableEq

/-- Protocol-specific `settings` of an outbound. The source wraps the single
server entry in a one-element `vnext`/`servers` array; the entry's fields are
kept here directly. `Option` fields model values that may be JS undefined. -/
inductive OutboundSettings where
  | vless (address : String) (port : Option Int) (id encryption flow : String)
  | vmess (address : Option String) (port : Option Int) (id : Option String)
      (alterId : Option Int) (security : String)
  | trojan (address : String) (port : Option Int) (password : String)
  | shadowsocks (address : String) (port : Option Int) (method : String)
      (password : Option String)
  deriving DecidableEq

/-- An outbound descriptor as rendered into the Xray config document.
`streamSettings := none` models an object without that key (shadowsocks). -/
structure Outbound where
  protocol : String
  settings : OutboundSettings
  streamSettings : Option StreamSettings := none
  deriving DecidableEq

/-- The components of a JS `URL` value that the parsers read; `params k`
models `new URLSearchParams(url.search).get(k)` and `scheme` models
`url.protocol.replace(":", "")`. -/
structure JsUrl where
  scheme : String
  username : String
  hostname : String
  port : String
  params : String → Option String

/-- `XrayManager.parseVless`. -/
def parseVless (url : JsUrl) : Outbound :=
  let uuid := url.username
  let address := url.hostname
  let port := jsParseInt url.port
  let typ := orDefault (url.params "type") "tcp"
  let security := orDefault (url.params "security") "none"
  { protocol := "vless",
    settings := OutboundSettings.vless address port uuid
      (orDefault (url.params "encryption") "none")
      (orDefault (url.params "flow") ""),
    streamSettings := some
      { network := typ,
        security := security,
        tlsSettings :=
          if security = "tls" then
            some { serverName := some (orDefault (url.params "sni") address),
                   fingerprint := some (orDefault (url.params "fp") "chrome"),
                   allowInsecure := decide (url.params "allowInsecure" = some "1") }
          else none,
        realitySettings :=
          if security = "reality" then
            some { serverName := orDefault (url.params "sni") address,
                   fingerprint := orDefault (url.params "fp") "chrome",
                   publicKey := orDefault (url.params "pbk") "",
                   shortId := orDefault (url.params "sid") "",
                   spiderX := orDefault (url.params "spx") "" }
          else none,
        wsSettings :=
          if typ = "ws" then
            some { path := orDefault (url.params "path") "/",
                   hostHeader := jsStr (url.params "host") }
          else none,
        grpcSettings :=
          if typ = "grpc" then
            some { serviceName := orDefault (url.params "serviceName") "" }
          else none,
        httpSettings :=
          if typ = "http" ∨ typ = "h2" then
            some { host := match url.params "host" with
                           | none => []
                           | some s => jsSplitOnChar ',' s,
                   path := orDefault (url.params "path") "/" }
          else none } }

/-- `XrayManager.parseTrojan`: note that the source attaches `tlsSettings`
unconditionally, never attaches reality settings, and never attaches
transport sub-settings. -/
def parseTrojan (url : JsUrl) : Outbound :=
  let password := url.username
  let address := url.hostname
  let port := jsParseInt url.port
  { protocol := "trojan",
    settings := OutboundSettings.trojan address port password,
    streamSettings := some
      { network := orDefault (url.params "type") "tcp",
        security := orDefault (url.params "security") "tls",
        tlsSettings :=
          some { serverName := some (orDefault (url.params "sni") address),
                 fingerprint := some (orDefault (url.params "fp") "chrome"),
                 allowInsecure := decide (url.params "allowInsecure" = some "1") } } }

/-- The fields of the decoded vmess JSON object that the parser reads.
A `none` field models a key absent from the JSON (JS undefined). -/
structure VmessJson where
  add : Option String := none
  port : Option String := none
  id : Option String := none
  aid : Option String := none
  scy : Option String := none
  net : Option String := none
  tls : Option String := none
  path : Option String := none
  host : Option String := none
  sni : Option String := none
  skip_cert_verify : Option Bool := none

/-- `XrayManager.parseVmess`: strips the scheme, base64-decodes the payload
and JSON-parses it (the JSON parser of the runtime is supplied as `jsonEnv`;
`none` models a JSON SyntaxError). Errors model the exceptions thrown by
`atob` / `JSON.parse`. -/
def parseVmess (link : String) (jsonEnv : String → Option VmessJson) :
    Except String Outbound :=
  let base64Config := jsReplaceFirst link "vmess://"
  match jsAtob base64Config with
  | none => Except.error "InvalidCharacterError: atob failed"
  | some configStr =>
    match jsonEnv configStr with
    | none => Except.error "SyntaxError: JSON parse failed"
    | some cfg =>
      Except.ok
        { protocol := "vmess",
          settings := OutboundSettings.vmess cfg.add
            (match cfg.port with
             | none => none
             | some p => jsParseInt p)
            cfg.id
            (jsParseInt (orDefault cfg.aid "0"))
            (orDefault cfg.scy "auto"),
          streamSettings := some
            { network := orDefault cfg.net "tcp",
              security := if cfg.tls = some "tls" then "tls" else "none",
              wsSettings :=
                if cfg.net = some "ws" then
                  some { path := orDefault cfg.path "/",
                         hostHeader := jsStr cfg.host }
                else none,
              tlsSettings :=
                if cfg.tls = some "tls" then
                  some { serverName := match jsStr cfg.sni with
                                       | some s => some s
                                       | none => cfg.add,
                         fingerprint := none,
                         allowInsecure := (cfg.skip_cert_verify).getD false }
                else none } }

/-- `XrayManager.parseShadowsocks`: the userinfo is base64 `method:password`;
a failing `atob` models the thrown InvalidCharacterError, and a missing
password component is JS undefined. -/
def parseShadowsocks (url : JsUrl) : Except String Outbound :=
  match jsAtob url.username with
  | none => Except.error "InvalidCharacterError: atob failed"
  | some userInfo =>
    let parts := jsSplitOnChar ':' userInfo
    Except.ok
      { protocol := "shadowsocks",
        settings := OutboundSettings.shadowsocks url.hostname (jsParseInt url.port)
          (parts.headD "") (parts.get? 1),
        streamSettings := none }

/-- `XrayManager.parseProxyLink`: dispatch on the URI scheme; any other
scheme throws the named unsupported-protocol error. -/
def parseProxyLink (link : String) (url : JsUrl)
    (jsonEnv : String → Option VmessJson) : Except String Outbound :=
  let protocol := url.scheme
  if protocol = "vless" then Except.ok (parseVless url)
  else if protocol = "vmess" then parseVmess link jsonEnv
  else if protocol = "trojan" then Except.ok (parseTrojan url)
  else if protocol = "shadowsocks" ∨ protocol = "ss" then parseShadowsocks url
  else Except.error ("Unsupported protocol: " ++ protocol)

/-- The piece of `XrayManager` state that its lifecycle methods touch:
the `process` field (undefined until `start`, never cleared afterwards). -/
structure XrayManager where
  process : Option Unit
  deriving DecidableEq

/-- The effect of `XrayManager.start` on the `process` field:
`command.spawn()` assigns it. (Config generation, output draining and the
readiness poll have no effect on this field, even when the poll times out.) -/
def XrayManager.start (m : XrayManager) : XrayManager :=
  { m with process := some () }

/-- `XrayManager.stop`: if `process` is set, send SIGTERM and await exit;
the returned list records the termination signals issued. The `process`
field is never cleared. -/
def XrayManager.stop (m : XrayManager) : XrayManager × List String :=
  match m.process with
  | none => (m, [])
  | some _ => (m, ["SIGTERM"])

/-! ## src/subscription.ts : SubscriptionManager -/

/-- A parsed subscription node. -/
structure NodeInfo where
  label : String
  vlessUrl : String
  deriving DecidableEq

/-- Runtime primitives used by label extraction: `hostname u` models
`new URL(u).hostname` (`none` = the constructor threw) and
`decodeURIComponent` likewise (`none` = URIError). -/
structure UrlEnv where
  hostname : String → Option String
  decodeURIComponent : String → Option String

/-- `SubscriptionManager.extractLabel`: take the percent-decoded fragment's
last whitespace-separated token, falling back to the URL host when there is
no fragment and to "unknown" when extraction fails. -/
def extractLabel (env : UrlEnv) (url : String) : String :=
  match jsSplitOnChar '#' url with
  | [] => "unknown"
  | [_] =>
    match env.hostname url with
    | some h => h
    | none => "unknown"
  | _ :: rest =>
    let fragment := jsIntercalate "#" rest
    match env.decodeURIComponent fragment with
    | none => "unknown"
    | some decoded =>
      let label := jsSplitWsLast decoded
      if label = "" then "unknown" else label

/-- Outcome of the subscription `fetch`, supplied by the environment. -/
inductive FetchOutcome where
  | netError (msg : String)
  | response (ok : Bool) (status : Nat) (statusText : String) (body : String)

/-- The per-line node recognition of `fetchAndParse`: keep lines starting
with a supported scheme whose extracted label is truthy. -/
def parseSubscriptionBody (uenv : UrlEnv) (decoded : String) : List NodeInfo :=
  let lines := (jsSplitOnChar '\n' decoded).filter
    (fun l => 0 < (trimL l.data).length)
  lines.filterMap (fun line =>
    let trimmed := jsTrim line
    if jsStartsWith trimmed "vless://" || jsStartsWith trimmed "vmess://" ||
       jsStartsWith trimmed "trojan://" || jsStartsWith trimmed "ss://" ||
       jsStartsWith trimmed "shadowsocks://" then
      let label := extractLabel uenv trimmed
      if label = "" then none
      else some { label := label, vlessUrl := trimmed }
    else none)

/-- `SubscriptionManager.fetchAndParse`: a network error, a non-OK HTTP
status, or a body that is not decodable base64 is an error (rethrown after
logging); otherwise the decoded newline-separated list is parsed — an empty
or node-free body yields `Except.ok []`, not an error. -/
def fetchAndParse (uenv : UrlEnv) (fetch : FetchOutcome) :
    Except String (List NodeInfo) :=
  match fetch with
  | FetchOutcome.netError m => Except.error m
  | FetchOutcome.response ok status statusText body =>
    if !ok then Except.error ("HTTP " ++ toString status ++ ": " ++ statusText)
    else
      match jsAtob (jsTrim body) with
      | none => Except.error "InvalidCharacterError: atob failed"
      | some decoded => Except.ok (parseSubscriptionBody uenv decoded)

/-- One tick of `startPeriodicRefresh` combined with the monitor's callback
(monitor.ts start): on success the fetched list replaces `currentNodes`;
on error the exception is caught and logged and the list is left unchanged. -/
def refreshStep (uenv : UrlEnv) (fetch : FetchOutcome)
    (currentNodes : List NodeInfo) : List NodeInfo :=
  match fetchAndParse uenv fetch with
  | Except.ok nodes => nodes
  | Except.error _ => currentNodes

/-! ## monitor.ts : MonitorState, the availability state machine and runCheck -/

/-- The three-valued health state. -/
inductive Health where
  | healthy
  | degraded
  | failed
  deriving DecidableEq

/-- The kind of alert handed to `AlertManager.sendAlert`. -/
inductive AlertKind where
  | error
  | degradation
  | warning
  | recovery
  deriving DecidableEq

/-- The `MonitorState` class. Timestamps are `Int` milliseconds. -/
structure MonitorState where
  consecutiveFailures : Nat
  lastAlertSent : Option Int
  currentState : Health
  totalChecks : Nat
  totalFailures : Nat
  startTime : Int
  lastCheckResults : List CheckResult
  proxyEnabled : Bool
  proxyStatus : String
  deriving DecidableEq

/-- The field initializers of `MonitorState`. -/
def initialState (startTime : Int) : MonitorState :=
  { consecutiveFailures := 0, lastAlertSent := none, currentState := Health.healthy,
    totalChecks := 0, totalFailures := 0, startTime := startTime,
    lastCheckResults := [], proxyEnabled := false, proxyStatus := "unknown" }

/-- Which alert kinds some configured webhook endpoint subscribes to
(the `config.webhooks?.endpoints?.some(e => e.events.includes(...))` checks). -/
structure AlertConfig where
  hasErrorEvent : Bool
  hasDegradationEvent : Bool
  hasWarningEvent : Bool
  hasRecoveryEvent : Bool
  deriving DecidableEq

/-- `YouTubeMonitor.shouldSendAlert`: true when no alert was ever sent
(or the stored time is the falsy 0), or when more than the debounce window
has elapsed since the last alert. -/
def shouldSendAlert (st : MonitorState) (now : Int) (debounceMinutes : Nat) : Bool :=
  match st.lastAlertSent with
  | none => true
  | some t => t == 0 || decide (now - t > (debounceMinutes : Int) * 60 * 1000)

/-- `YouTubeMonitor.handleFailure` (state effects plus the alert handed to
the dispatcher): bump both failure counters, enter `failed`, and alert when
the state changed or the debounce window elapsed; `lastAlertSent` is updated
whenever the alert condition holds, even if no endpoint subscribes to
`error`. -/
def handleFailure (ac : AlertConfig) (debounceMinutes : Nat) (now : Int)
    (st : MonitorState) : MonitorState × Option AlertKind :=
  let st1 : MonitorState :=
    { st with consecutiveFailures := st.consecutiveFailures + 1,
              totalFailures := st.totalFailures + 1,
              currentState := Health.failed }
  if st.currentState ≠ Health.failed ∨ shouldSendAlert st now debounceMinutes = true then
    ({ st1 with lastAlertSent := some now },
     if ac.hasErrorEvent then some AlertKind.error else none)
  else (st1, none)

/-- `YouTubeMonitor.handleDegradation`: enter `degraded`; alert only on the
transition from `healthy`, as `degradation` or the `warning` fallback. -/
def handleDegradation (ac : AlertConfig) (st : MonitorState) :
    MonitorState × Option AlertKind :=
  let st1 : MonitorState := { st with currentState := Health.degraded }
  (st1,
   if st.currentState = Health.healthy then
     if ac.hasDegradationEvent then some AlertKind.degradation
     else if ac.hasWarningEvent then some AlertKind.warning
     else none
   else none)

/-- `YouTubeMonitor.handleSuccess`: enter `healthy`, reset the consecutive
failure counter, and send a recovery alert only on the transition from
`failed` when some endpoint subscribes to `recovery`. -/
def handleSuccess (ac : AlertConfig) (st : MonitorState) :
    MonitorState × Option AlertKind :=
  let st1 : MonitorState :=
    { st with currentState := Health.healthy, consecutiveFailures := 0 }
  (st1,
   if st.currentState = Health.failed then
     if ac.hasRecoveryEvent then some AlertKind.recovery else none
   else none)

/-- Number of failed results in a cycle's aggregate. -/
def failedCount (rs : List CheckResult) : Nat :=
  (rs.filter (fun r => !r.success)).length

/-- The tail of `runCheck`'s try block: store the results and dispatch on
`failedCount` against the alert threshold. -/
def processResults (ac : AlertConfig) (alertThreshold debounceMinutes : Nat)
    (now : Int) (st : MonitorState) (allResults : List CheckResult) :
    MonitorState × Option AlertKind :=
  let st1 : MonitorState := { st with lastCheckResults := allResults }
  let fc := failedCount allResults
  if alertThreshold ≤ fc then handleFailure ac debounceMinutes now st1
  else if 0 < fc then handleDegradation ac st1
  else handleSuccess ac st1

/-- Per-node environment of a cycle: either the Xray engine started and each
probe has an outcome, or starting/probing threw with the given message at the
given timestamp (the try/catch around steps [1]-[3] of the node loop). -/
inductive NodeStart where
  | started (probeEnv : String → ProbeEnv)
  | startFailed (msg : String) (ts : String)

/-- One iteration of the node loop of `runCheck`: on success the node's label
is attached to every probe result; on failure a failed result is synthesized
for every configured video, carrying the triggering error. -/
def checkNode (videos : List VideoConfig) (node : NodeInfo) (ns : NodeStart) :
    List CheckResult :=
  match ns with
  | NodeStart.started pe => checkAllVideos videos (some node.label) pe
  | NodeStart.startFailed msg ts =>
      videos.map (fun v =>
        { node_label := some node.label, video_id := v.id, status := "failed",
          success := false, duration_ms := 0,
          error := some ("Node check failed: " ++ msg), timestamp := ts })

/-- The aggregate result list of one cycle: sequential per-node checking when
the node list is non-empty, otherwise a single direct (or single-proxy) pass
with the checker's current label. -/
def cycleResults (videos : List VideoConfig) (nodes : List NodeInfo)
    (env : NodeInfo → NodeStart) (directLabel : Option String)
    (directEnv : String → ProbeEnv) : List CheckResult :=
  if 0 < nodes.length then flatMapL (fun n => checkNode videos n (env n)) nodes
  else checkAllVideos videos directLabel directEnv

/-- What the try block of `runCheck` did: either it aggregated a result list,
or an unexpected exception was raised inside the cycle. -/
inductive CycleBody where
  | results (rs : List CheckResult)
  | exn (msg : String)

/-- Observable outcome of one `runCheck` invocation. -/
structure CycleOutcome where
  state : MonitorState
  inProgress : Bool
  skipped : Bool
  alert : Option AlertKind
  deriving DecidableEq

/-- `YouTubeMonitor.runCheck`: skip (with only a warning) when a cycle is in
progress; otherwise bump `totalChecks`, run the body, count an unexpected
exception as a failed cycle, and clear the guard on every exit path. -/
def runCheck (ac : AlertConfig) (alertThreshold debounceMinutes : Nat)
    (now : Int) (st : MonitorState) (isCheckInProgress : Bool)
    (body : CycleBody) : CycleOutcome :=
  if isCheckInProgress then
    { state := st, inProgress := isCheckInProgress, skipped := true, alert := none }
  else
    let st1 : MonitorState := { st with totalChecks := st.totalChecks + 1 }
    match body with
    | CycleBody.results rs =>
        let pr := processResults ac alertThreshold debounceMinutes now st1 rs
        { state := pr.1, inProgress := false, skipped := false, alert := pr.2 }
    | CycleBody.exn _ =>
        { state := { st1 with totalFailures := st1.totalFailures + 1 },
          inProgress := false, skipped := false, alert := none }

/-! ## Helper lemmas -/

theorem flatMapL_length_const {α β : Type} (f : α → List β) (k : Nat)
    (hf : ∀ a, (f a).length = k) :
    ∀ l : List α, (flatMapL f l).length = l.length * k := by
  intro l
  induction l with
  | nil => simp [flatMapL]
  | cons a t ih =>
    simp [flatMapL, hf, ih, Nat.succ_mul, Nat.add_comm]

theorem mem_flatMapL {α β : Type} (f : α → List β) (l : List α) (a : α) (b : β)
    (ha : a ∈ l) (hb : b ∈ f a) : b ∈ flatMapL f l := by
  induction l with
  | nil => cases ha
  | cons x t ih =>
    rcases List.mem_cons.mp ha with h | h
    · subst h
      exact List.mem_append.mpr (Or.inl hb)
    · exact List.mem_append.mpr (Or.inr (ih h))

theorem checkVideo_video_id (lbl : Option String) (env : String → ProbeEnv)
    (vid : String) : (checkVideo lbl env vid).video_id = vid := by
  cases h : (env vid).outcome with
  | exit code out err =>
    by_cases hc : code = 0 <;> simp [checkVideo, h, hc]
  | exn msg => simp [checkVideo, h]

theorem checkNode_length (videos : List VideoConfig) (n : NodeInfo)
    (ns : NodeStart) : (checkNode videos n ns).length = videos.length := by
  cases ns <;> simp [checkNode, checkAllVideos]

theorem checkNode_map_video_id (videos : List VideoConfig) (n : NodeInfo)
    (ns : NodeStart) :
    (checkNode videos n ns).map (fun r => r.video_id) =
      videos.map (fun v => v.id) := by
  cases ns <;>
    simp [checkNode, checkAllVideos, List.map_map, Function.comp,
      checkVideo_video_id]

/-! ## Fixtures for witnesses and counterexamples -/

def demoVideos : List VideoConfig := [⟨"vid1", "One", 10⟩, ⟨"vid2", "Two", 5⟩]

def nodeA : NodeInfo := ⟨"NodeA", "vless://a@h1:443"⟩

def nodeB : NodeInfo := ⟨"NodeB", "vless://b@h2:443"⟩

def demoNodes : List NodeInfo := [nodeA, nodeB]

def okProbe : String → ProbeEnv :=
  fun _ => ⟨ProbeOutcome.exit 0 "Title" "", 5, "t1"⟩

def demoEnv : NodeInfo → NodeStart := fun n =>
  if n.label = "NodeB" then NodeStart.startFailed "engine not ready" "t2"
  else NodeStart.started okProbe

def demoUrlEnv : UrlEnv :=
  { hostname := fun _ => none, decodeURIComponent := fun s => some s }

def priorNodes : List NodeInfo := [⟨"Moscow", "vless://m@h:443"⟩]

def failedR : CheckResult :=
  { node_label := none, video_id := "vid1", status := "failed", success := false,
    duration_ms := 10, error := some "HTTP 403: Video unavailable (access denied)",
    timestamp := "t" }

/-! ## Claims -/

/-- Claim C1: in a cycle with a non-empty node list the aggregate has exactly
`nodes × targets` results — one per node per configured video, all of them
synthesized as failed (carrying the triggering error) for a node whose start
or probing failed — and one node's failure never removes another node's
results from the aggregate; with an empty node list the cycle produces
exactly one result per configured target. -/
theorem c1_cycle_result_counts (videos : List VideoConfig)
    (nodes : List NodeInfo) (env : NodeInfo → NodeStart)
    (directLabel : Option String) (directEnv : String → ProbeEnv) :
    (nodes ≠ [] →
      (cycleResults videos nodes env directLabel directEnv).length =
        nodes.length * videos.length)
    ∧ (cycleResults videos [] env directLabel directEnv).length = videos.length
    ∧ (cycleResults videos [] env directLabel directEnv).map (fun r => r.video_id) =
        videos.map (fun v => v.id)
    ∧ (∀ n, (checkNode videos n (env n)).length = videos.length)
    ∧ (∀ n, (checkNode videos n (env n)).map (fun r => r.video_id) =
        videos.map (fun v => v.id))
    ∧ (∀ n msg ts, env n = NodeStart.startFailed msg ts →
        ∀ r ∈ checkNode videos n (env n),
          r.success = false ∧ r.node_label = some n.label ∧
            r.error = some ("Node check failed: " ++ msg))
    ∧ (∀ n ∈ nodes, nodes ≠ [] → ∀ r ∈ checkNode videos n (env n),
        r ∈ cycleResults videos nodes env directLabel directEnv) := by
  refine ⟨?_, ?_, ?_, ?_, ?_, ?_, ?_⟩
  · intro hne
    have h0 : 0 < nodes.length := List.length_pos.mpr hne
    simp only [cycleResults, if_pos h0]
    exact flatMapL_length_const _ videos.length
      (fun n => checkNode_length videos n (env n)) nodes
  · simp [cycleResults, checkAllVideos]
  · simp [cycleResults, checkAllVideos, List.map_map, Function.comp,
      checkVideo_video_id]
  · intro n
    exact checkNode_length videos n (env n)
  · intro n
    exact checkNode_map_video_id videos n (env n)
  · intro n msg ts h r hr
    rw [h] at hr
    simp only [checkNode, List.mem_map] at hr
    obtain ⟨v, _, rfl⟩ := hr
    exact ⟨rfl, rfl, rfl⟩
  · intro n hn hne r hr
    have h0 : 0 < nodes.length := List.length_pos.mpr hne
    simp only [cycleResults, if_pos h0]
    exact mem_flatMapL _ nodes n r hn hr

/-- Witness for C1 at a concrete two-node, two-video cycle in which the
second node's engine start fails. -/
theorem c1_cycle_result_counts_witness :
    (cycleResults demoVideos demoNodes demoEnv none okProbe).length = 2 * 2 := by
  exact (c1_cycle_result_counts demoVideos demoNodes demoEnv none okProbe).1
    (by decide)

/-- Claim C5: runCheck propagates no exception to its caller — an unexpected
exception inside the cycle is caught and counted as a failed cycle, the
in-progress guard is false on every non-skipped exit path, and an invocation
while a cycle is in progress is skipped without touching the state. -/
theorem c5_run_check_never_throws (ac : AlertConfig) (th dm : Nat) (now : Int)
    (st : MonitorState) :
    (∀ body, runCheck ac th dm now st true body =
      { state := st, inProgress := true, skipped := true, alert := none })
    ∧ (∀ body, (runCheck ac th dm now st false body).inProgress = false)
    ∧ (∀ msg, runCheck ac th dm now st false (CycleBody.exn msg) =
      { state := { st with totalChecks := st.totalChecks + 1,
                           totalFailures := st.totalFailures + 1 },
        inProgress := false, skipped := false, alert := none }) := by
  refine ⟨fun body => rfl, fun body => ?_, fun msg => rfl⟩
  cases body <;> rfl

/-- Witness for C5: a concrete crashed cycle is counted as one failed cycle
and one total check, with the guard cleared. -/
theorem c5_run_check_never_throws_witness :
    (runCheck ⟨true, true, true, true⟩ 2 15 0 (initialState 0) false
        (CycleBody.exn "boom")).state.totalFailures = 1
    ∧ (runCheck ⟨true, true, true, true⟩ 2 15 0 (initialState 0) false
        (CycleBody.exn "boom")).inProgress = false := by
  have h := (c5_run_check_never_throws ⟨true, true, true, true⟩ 2 15 0
    (initialState 0)).2.2 "boom"
  rw [h]
  exact ⟨rfl, rfl⟩

/-- Claim C9 (amended): stop() on a never-started XrayManager is a no-op, but
the process field is never cleared by stop(), so a second stop() on an
already-stopped instance issues the termination signal again instead of
being a no-op. -/
theorem c9_stop_behavior (m : XrayManager) :
    (XrayManager.stop { process := none } = ({ process := none }, []))
    ∧ (∀ u : Unit, XrayManager.stop { process := some u } =
        ({ process := some u }, ["SIGTERM"]))
    ∧ (XrayManager.stop (XrayManager.start m)).1.process = some ()
    ∧ (XrayManager.stop (XrayManager.stop (XrayManager.start m)).1).2 =
        ["SIGTERM"] :=
  ⟨rfl, fun _ => rfl, rfl, rfl⟩

/-- Witness for C9's amended statement: stop on a never-started instance. -/
theorem c9_stop_behavior_witness :
    XrayManager.stop { process := none } = ({ process := none }, []) :=
  (c9_stop_behavior { process := none }).1

/-- Counterexample to C9 as stated: after start and one stop the process
field is still set, so a second stop() issues SIGTERM again — an observable
effect (in Deno, kill on an exited child even throws), not a no-op. -/
theorem c9_claim_counterexample :
    (XrayManager.stop
        (XrayManager.stop (XrayManager.start { process := none })).1).2 =
      ["SIGTERM"]
    ∧ (["SIGTERM"] : List String) ≠ [] := ⟨rfl, by decide⟩

/-- Claim C8 (amended): a refresh whose fetch throws, returns a non-OK
status, or returns a body that is not decodable base64 fails and leaves the
previously loaded node list in effect; but a fetch that succeeds with an
empty body does not fail — it yields an empty node list which replaces the
prior list. -/
theorem c8_refresh_behavior (uenv : UrlEnv) (current : List NodeInfo) :
    (∀ msg, refreshStep uenv (FetchOutcome.netError msg) current = current)
    ∧ (∀ status statusText body,
        refreshStep uenv (FetchOutcome.response false status statusText body)
          current = current)
    ∧ (∀ status statusText body, jsAtob (jsTrim body) = none →
        fetchAndParse uenv (FetchOutcome.response true status statusText body) =
          Except.error "InvalidCharacterError: atob failed"
        ∧ refreshStep uenv (FetchOutcome.response true status statusText body)
            current = current)
    ∧ (∀ status statusText,
        fetchAndParse uenv (FetchOutcome.response true status statusText "") =
          Except.ok []
        ∧ refreshStep uenv (FetchOutcome.response true status statusText "")
            current = []) := by
  refine ⟨fun msg => rfl, fun s t b => rfl, ?_, ?_⟩
  · intro s t b h
    constructor
    · simp [fetchAndParse, h]
    · simp [refreshStep, fetchAndParse, h]
  · intro s t
    exact ⟨rfl, rfl⟩

/-- Witness for C8: a refresh with an undecodable body keeps a concrete
prior node list in effect. -/
theorem c8_refresh_behavior_witness :
    refreshStep demoUrlEnv (FetchOutcome.response true 200 "OK" "%%%")
      priorNodes = priorNodes := by
  exact ((c8_refresh_behavior demoUrlEnv priorNodes).2.2.1 200 "OK" "%%%"
    (by decide)).2

/-- Counterexample to C8 as stated: an empty body does not produce a
SubscriptionFetchError — fetchAndParse returns an empty list and the refresh
replaces the non-empty prior list with it. -/
theorem c8_claim_counterexample :
    fetchAndParse demoUrlEnv (FetchOutcome.response true 200 "OK" "") =
      Except.ok []
    ∧ refreshStep demoUrlEnv (FetchOutcome.response true 200 "OK" "")
        priorNodes = []
    ∧ priorNodes ≠ [] := ⟨rfl, rfl, by decide⟩

/-- Claim C10: a skipped runCheck invocation (guard already set) leaves every
MonitorState field unchanged and increments nothing. -/
theorem c10_skipped_cycle_frame (ac : AlertConfig) (th dm : Nat) (now : Int)
    (st : MonitorState) (body : CycleBody) :
    runCheck ac th dm now st true body =
      { state := st, inProgress := true, skipped := true, alert := none }
    ∧ (runCheck ac th dm now st true body).state = st
    ∧ (runCheck ac th dm now st true body).state.totalChecks = st.totalChecks
    ∧ (runCheck ac th dm now st true body).state.currentState = st.currentState
    ∧ (runCheck ac th dm now st true body).state.consecutiveFailures =
        st.consecutiveFailures
    ∧ (runCheck ac th dm now st true body).state.totalFailures = st.totalFailures
    ∧ (runCheck ac th dm now st true body).state.lastAlertSent = st.lastAlertSent
    ∧ (runCheck ac th dm now st true body).state.lastCheckResults =
        st.lastCheckResults
    ∧ (runCheck ac th dm now st true body).state.proxyEnabled = st.proxyEnabled
    ∧ (runCheck ac th dm now st true body).state.proxyStatus = st.proxyStatus
    ∧ (runCheck ac th dm now st true body).state.startTime = st.startTime
    ∧ (runCheck ac th dm now st true body).skipped = true
    ∧ (runCheck ac th dm now st true body).alert = none :=
  ⟨rfl, rfl, rfl, rfl, rfl, rfl, rfl, rfl, rfl, rfl, rfl, rfl, rfl⟩

/-- Witness for C10 at a concrete in-progress state. -/
theorem c10_skipped_cycle_frame_witness :
    (runCheck ⟨true, true, true, true⟩ 2 15 0 (initialState 7) true
        (CycleBody.exn "x")).state = initialState 7 :=
  (c10_skipped_cycle_frame ⟨true, true, true, true⟩ 2 15 0 (initialState 7)
    (CycleBody.exn "x")).2.1

/-! ## Helper lemmas for the availability state machine -/

theorem runCheck_results (ac : AlertConfig) (th dm : Nat) (now : Int)
    (st : MonitorState) (rs : List CheckResult) :
    runCheck ac th dm now st false (CycleBody.results rs) =
      { state := (processResults ac th dm now
          { st with totalChecks := st.totalChecks + 1 } rs).1,
        inProgress := false, skipped := false,
        alert := (processResults ac th dm now
          { st with totalChecks := st.totalChecks + 1 } rs).2 } := rfl

theorem processResults_failure (ac : AlertConfig) (th dm : Nat) (now : Int)
    (st : MonitorState) (rs : List CheckResult) (h : th ≤ failedCount rs) :
    processResults ac th dm now st rs =
      handleFailure ac dm now { st with lastCheckResults := rs } := by
  simp only [processResults]
  rw [if_pos h]

theorem processResults_degraded (ac : AlertConfig) (th dm : Nat) (now : Int)
    (st : MonitorState) (rs : List CheckResult) (h1 : ¬ th ≤ failedCount rs)
    (h2 : 0 < failedCount rs) :
    processResults ac th dm now st rs =
      handleDegradation ac { st with lastCheckResults := rs } := by
  simp only [processResults]
  rw [if_neg h1, if_pos h2]

theorem processResults_success (ac : AlertConfig) (th dm : Nat) (now : Int)
    (st : MonitorState) (rs : List CheckResult) (h1 : ¬ th ≤ failedCount rs)
    (h2 : failedCount rs = 0) :
    processResults ac th dm now st rs =
      handleSuccess ac { st with lastCheckResults := rs } := by
  simp only [processResults]
  rw [if_neg h1, if_neg (by omega)]

theorem handleFailure_cf (ac : AlertConfig) (dm : Nat) (now : Int)
    (st : MonitorState) :
    (handleFailure ac dm now st).1.consecutiveFailures =
      st.consecutiveFailures + 1 := by
  simp only [handleFailure]
  split <;> rfl

theorem handleFailure_pos (ac : AlertConfig) (dm : Nat) (now : Int)
    (st : MonitorState)
    (h : st.currentState ≠ Health.failed ∨ shouldSendAlert st now dm = true) :
    handleFailure ac dm now st =
      ({ st with consecutiveFailures := st.consecutiveFailures + 1,
                 totalFailures := st.totalFailures + 1,
                 currentState := Health.failed,
                 lastAlertSent := some now },
       if ac.hasErrorEvent then some AlertKind.error else none) := by
  simp only [handleFailure]
  rw [if_pos h]

theorem handleFailure_neg (ac : AlertConfig) (dm : Nat) (now : Int)
    (st : MonitorState) (h1 : st.currentState = Health.failed)
    (h2 : shouldSendAlert st now dm = false) :
    handleFailure ac dm now st =
      ({ st with consecutiveFailures := st.consecutiveFailures + 1,
                 totalFailures := st.totalFailures + 1,
                 currentState := Health.failed }, none) := by
  simp only [handleFailure]
  rw [if_neg (by simp [h1, h2])]

theorem handleFailure_alert_error_inv (ac : AlertConfig) (dm : Nat) (now : Int)
    (st : MonitorState)
    (h : (handleFailure ac dm now st).2 = some AlertKind.error) :
    (handleFailure ac dm now st).1.lastAlertSent = some now
    ∧ (handleFailure ac dm now st).1.currentState = Health.failed
    ∧ ac.hasErrorEvent = true := by
  by_cases hc : st.currentState ≠ Health.failed ∨ shouldSendAlert st now dm = true
  · rw [handleFailure_pos ac dm now st hc] at h ⊢
    by_cases hE : ac.hasErrorEvent
    · exact ⟨rfl, rfl, hE⟩
    · rw [if_neg hE] at h
      exact absurd h (by simp)
  · push_neg at hc
    rw [handleFailure_neg ac dm now st hc.1
      (by simpa using hc.2)] at h
    exact absurd h (by simp)

theorem handleSuccess_alert_ne_error (ac : AlertConfig) (st : MonitorState) :
    (handleSuccess ac st).2 = some AlertKind.error → False := by
  simp only [handleSuccess]
  split
  · split <;> simp
  · simp

theorem handleDegradation_alert_ne_error (ac : AlertConfig) (st : MonitorState) :
    (handleDegradation ac st).2 = some AlertKind.error → False := by
  simp only [handleDegradation]
  split
  · split
    · simp
    · split <;> simp
  · simp

theorem handleSuccess_alert_ne_recovery_of_not_failed (ac : AlertConfig)
    (st : MonitorState) (h : st.currentState ≠ Health.failed) :
    (handleSuccess ac st).2 = none := by
  simp only [handleSuccess]
  rw [if_neg h]

theorem handleFailure_alert_ne_recovery (ac : AlertConfig) (dm : Nat)
    (now : Int) (st : MonitorState) :
    (handleFailure ac dm now st).2 = some AlertKind.recovery → False := by
  simp only [handleFailure]
  split
  · split <;> simp
  · simp

theorem handleDegradation_alert_ne_recovery (ac : AlertConfig)
    (st : MonitorState) :
    (handleDegradation ac st).2 = some AlertKind.recovery → False := by
  simp only [handleDegradation]
  split
  · split
    · simp
    · split <;> simp
  · simp

theorem runCheck_alert_error_inv (ac : AlertConfig) (th dm : Nat) (now : Int)
    (st : MonitorState) (rs : List CheckResult)
    (h : (runCheck ac th dm now st false (CycleBody.results rs)).alert =
      some AlertKind.error) :
    (runCheck ac th dm now st false (CycleBody.results rs)).state.lastAlertSent =
        some now
    ∧ (runCheck ac th dm now st false
        (CycleBody.results rs)).state.currentState = Health.failed
    ∧ ac.hasErrorEvent = true := by
  rw [runCheck_results] at h ⊢
  by_cases hf : th ≤ failedCount rs
  · rw [processResults_failure ac th dm now _ rs hf] at h ⊢
    exact handleFailure_alert_error_inv _ _ _ _ h
  · by_cases hp : 0 < failedCount rs
    · rw [processResults_degraded ac th dm now _ rs hf hp] at h
      exact (handleDegradation_alert_ne_error _ _ h).elim
    · rw [processResults_success ac th dm now _ rs hf (by omega)] at h
      exact (handleSuccess_alert_ne_error _ _ h).elim

theorem shouldSendAlert_false (st : MonitorState) (now : Int) (dm : Nat)
    (t : Int) (hla : st.lastAlertSent = some t) (ht : t ≠ 0)
    (hw : ¬ (now - t > (dm : Int) * 60 * 1000)) :
    shouldSendAlert st now dm = false := by
  simp only [shouldSendAlert, hla]
  simp [ht, hw]

theorem shouldSendAlert_true (st : MonitorState) (now : Int) (dm : Nat)
    (t : Int) (hla : st.lastAlertSent = some t)
    (hw : now - t > (dm : Int) * 60 * 1000) :
    shouldSendAlert st now dm = true := by
  simp only [shouldSendAlert, hla]
  simp [hw]

theorem runCheck_failed_debounced (ac : AlertConfig) (th dm : Nat) (now : Int)
    (st : MonitorState) (rs : List CheckResult) (t : Int)
    (hst : st.currentState = Health.failed) (hla : st.lastAlertSent = some t)
    (ht : t ≠ 0) (hw : ¬ (now - t > (dm : Int) * 60 * 1000))
    (hf : th ≤ failedCount rs) :
    (runCheck ac th dm now st false (CycleBody.results rs)).alert = none
    ∧ (runCheck ac th dm now st false
        (CycleBody.results rs)).state.lastAlertSent = some t
    ∧ (runCheck ac th dm now st false
        (CycleBody.results rs)).state.currentState = Health.failed := by
  rw [runCheck_results]
  rw [processResults_failure ac th dm now _ rs hf]
  rw [handleFailure_neg _ _ _ _ (by simpa using hst)
    (shouldSendAlert_false _ now dm t (by simpa using hla) ht hw)]
  exact ⟨rfl, by simpa using hla, rfl⟩

theorem runCheck_failed_realert (ac : AlertConfig) (th dm : Nat) (now : Int)
    (st : MonitorState) (rs : List CheckResult) (t : Int)
    (hla : st.lastAlertSent = some t) (hw : now - t > (dm : Int) * 60 * 1000)
    (hf : th ≤ failedCount rs) (hE : ac.hasErrorEvent = true) :
    (runCheck ac th dm now st false (CycleBody.results rs)).alert =
      some AlertKind.error := by
  rw [runCheck_results]
  rw [processResults_failure ac th dm now _ rs hf]
  rw [handleFailure_pos _ _ _ _
    (Or.inr (shouldSendAlert_true _ now dm t (by simpa using hla) hw))]
  simp [hE]

/-- Claim C2 (amended): after any completed cycle, `consecutiveFailures` is 0
when `failedCount = 0` provided the alert threshold is at least 1 (with
threshold 0 such a cycle takes the failure path and increments instead), is
incremented by exactly 1 when `failedCount ≥ alertThreshold`, is unchanged
when `0 < failedCount < alertThreshold`, and never increases on a cycle
below the threshold. -/
theorem c2_consecutive_failures (ac : AlertConfig) (th dm : Nat) (now : Int)
    (st : MonitorState) (rs : List CheckResult) :
    (1 ≤ th → failedCount rs = 0 →
      (runCheck ac th dm now st false
        (CycleBody.results rs)).state.consecutiveFailures = 0)
    ∧ (th ≤ failedCount rs →
      (runCheck ac th dm now st false
        (CycleBody.results rs)).state.consecutiveFailures =
          st.consecutiveFailures + 1)
    ∧ (0 < failedCount rs → failedCount rs < th →
      (runCheck ac th dm now st false
        (CycleBody.results rs)).state.consecutiveFailures =
          st.consecutiveFailures)
    ∧ (failedCount rs < th →
      (runCheck ac th dm now st false
        (CycleBody.results rs)).state.consecutiveFailures ≤
          st.consecutiveFailures) := by
  refine ⟨?_, ?_, ?_, ?_⟩
  · intro hth hf
    rw [runCheck_results, processResults_success ac th dm now _ rs (by omega) hf]
    rfl
  · intro hf
    rw [runCheck_results, processResults_failure ac th dm now _ rs hf]
    exact handleFailure_cf _ _ _ _
  · intro hp hlt
    rw [runCheck_results, processResults_degraded ac th dm now _ rs (by omega) hp]
    rfl
  · intro hlt
    by_cases hp : 0 < failedCount rs
    · rw [runCheck_results,
        processResults_degraded ac th dm now _ rs (by omega) hp]
      exact Nat.le_refl _
    · rw [runCheck_results,
        processResults_success ac th dm now _ rs (by omega) (by omega)]
      exact Nat.zero_le _

/-- Witness for C2's amended statement: a threshold-crossing cycle increments
the counter by exactly one, a clean cycle resets it. -/
theorem c2_consecutive_failures_witness :
    (runCheck ⟨true, true, true, true⟩ 2 15 1000 (initialState 0) false
      (CycleBody.results [failedR, failedR])).state.consecutiveFailures =
        (initialState 0).consecutiveFailures + 1 := by
  exact (c2_consecutive_failures ⟨true, true, true, true⟩ 2 15 1000
    (initialState 0) [failedR, failedR]).2.1 (by decide)

/-- Counterexample to C2 as stated: with `alertThreshold = 0` a cycle with
`failedCount = 0` crosses the threshold (`0 ≥ 0`), so the counter becomes 1,
not 0. -/
theorem c2_claim_counterexample :
    failedCount [] = 0
    ∧ (runCheck ⟨true, true, true, true⟩ 0 15 1000 (initialState 0) false
        (CycleBody.results [])).state.consecutiveFailures = 1 := ⟨rfl, rfl⟩

/-- Claim C3 (amended): provided the alert threshold is at least 1 and some
configured endpoint subscribes to `recovery`, a recovery alert is sent iff a
cycle with `failedCount = 0` is processed while the previous health state is
`failed`; a clean cycle from a non-`failed` state sends nothing, so repeated
healthy cycles never re-send recovery and degraded-to-healthy sends none. -/
theorem c3_recovery_alert_iff (ac : AlertConfig) (th dm : Nat) (now : Int)
    (st : MonitorState) (rs : List CheckResult)
    (hRec : ac.hasRecoveryEvent = true) (hth : 1 ≤ th) :
    ((runCheck ac th dm now st false (CycleBody.results rs)).alert =
        some AlertKind.recovery
      ↔ (failedCount rs = 0 ∧ st.currentState = Health.failed))
    ∧ (failedCount rs = 0 → st.currentState ≠ Health.failed →
      (runCheck ac th dm now st false (CycleBody.results rs)).alert = none) := by
  constructor
  · constructor
    · intro ha
      rw [runCheck_results] at ha
      by_cases hf : th ≤ failedCount rs
      · rw [processResults_failure ac th dm now _ rs hf] at ha
        exact absurd ha (by
          intro hcon
          exact handleFailure_alert_ne_recovery _ _ _ _ hcon)
      · by_cases hp : 0 < failedCount rs
        · rw [processResults_degraded ac th dm now _ rs hf hp] at ha
          exact absurd ha (by
            intro hcon
            exact handleDegradation_alert_ne_recovery _ _ hcon)
        · have hf0 : failedCount rs = 0 := by omega
          refine ⟨hf0, ?_⟩
          rw [processResults_success ac th dm now _ rs hf hf0] at ha
          by_cases hprev : st.currentState = Health.failed
          · exact hprev
          · rw [handleSuccess_alert_ne_recovery_of_not_failed _ _
              (by simpa using hprev)] at ha
            exact absurd ha (by simp)
    · rintro ⟨hf0, hprev⟩
      rw [runCheck_results,
        processResults_success ac th dm now _ rs (by omega) hf0]
      simp only [handleSuccess]
      rw [if_pos (by simpa using hprev), if_pos hRec]
  · intro hf0 hprev
    rw [runCheck_results,
      processResults_success ac th dm now _ rs (by omega) hf0]
    exact handleSuccess_alert_ne_recovery_of_not_failed _ _ (by simpa using hprev)

/-- Witness for C3's amended statement: a clean cycle out of the `failed`
state sends a recovery alert. -/
theorem c3_recovery_alert_iff_witness :
    (runCheck ⟨true, true, true, true⟩ 2 15 1000
      { initialState 0 with currentState := Health.failed } false
      (CycleBody.results [])).alert = some AlertKind.recovery := by
  exact (c3_recovery_alert_iff ⟨true, true, true, true⟩ 2 15 1000
    { initialState 0 with currentState := Health.failed } [] rfl
    (by decide)).1.mpr ⟨rfl, rfl⟩

/-- Counterexample to C3 as stated: when no endpoint subscribes to
`recovery`, a cycle with `failedCount = 0` processed while the state is
`failed` sends no recovery alert, so "sent iff transition" fails. -/
theorem c3_claim_counterexample :
    failedCount [] = 0
    ∧ ({ initialState 0 with currentState := Health.failed }).currentState =
        Health.failed
    ∧ (runCheck ⟨true, true, true, false⟩ 2 15 1000
        { initialState 0 with currentState := Health.failed } false
        (CycleBody.results [])).alert = none := ⟨rfl, rfl, rfl⟩

/-- Claim C4: for two consecutive threshold-crossing cycles where the first
sent an error alert and the second falls within the debounce window of it,
the second sends none (at most one across the two); a further
threshold-crossing cycle after the window has elapsed since that alert sends
a second error alert. (`t1 ≠ 0` excludes the epoch-zero clock value, which
the falsy check of the source would treat as "never alerted".) -/
theorem c4_debounce (ac : AlertConfig) (th dm : Nat) (t1 t2 t3 : Int)
    (st0 : MonitorState) (rs1 rs2 rs3 : List CheckResult)
    (hE : ac.hasErrorEvent = true) (ht1 : t1 ≠ 0)
    (ha : (runCheck ac th dm t1 st0 false (CycleBody.results rs1)).alert =
      some AlertKind.error)
    (hf2 : th ≤ failedCount rs2) (hf3 : th ≤ failedCount rs3)
    (hwin : ¬ (t2 - t1 > (dm : Int) * 60 * 1000))
    (hwin3 : t3 - t1 > (dm : Int) * 60 * 1000) :
    (runCheck ac th dm t2
      (runCheck ac th dm t1 st0 false (CycleBody.results rs1)).state false
      (CycleBody.results rs2)).alert = none
    ∧ (runCheck ac th dm t3
        (runCheck ac th dm t2
          (runCheck ac th dm t1 st0 false (CycleBody.results rs1)).state false
          (CycleBody.results rs2)).state false
        (CycleBody.results rs3)).alert = some AlertKind.error := by
  obtain ⟨hla1, hcs1, _⟩ := runCheck_alert_error_inv ac th dm t1 st0 rs1 ha
  obtain ⟨h2none, h2la, h2cs⟩ := runCheck_failed_debounced ac th dm t2
    (runCheck ac th dm t1 st0 false (CycleBody.results rs1)).state rs2 t1
    hcs1 hla1 ht1 hwin hf2
  exact ⟨h2none, runCheck_failed_realert ac th dm t3 _ rs3 t1 h2la hwin3 hf3 hE⟩

/-- Witness for C4 at concrete times: an alerting failure cycle at t=1000,
a debounced silent one at t=2000, and a re-alerting one at t=1000000
(window 15 min = 900000 ms). -/
theorem c4_debounce_witness :
    (runCheck ⟨true, true, true, true⟩ 1 15 2000
      (runCheck ⟨true, true, true, true⟩ 1 15 1000 (initialState 0) false
        (CycleBody.results [failedR])).state false
      (CycleBody.results [failedR])).alert = none := by
  exact (c4_debounce ⟨true, true, true, true⟩ 1 15 1000 2000 1000000
    (initialState 0) [failedR] [failedR] [failedR] rfl (by decide) (by decide)
    (by decide) (by decide) (by decide) (by decide)).1

/-! ## Helper lemmas for the proxy-link parsers -/

theorem isSome_ite_iff {α : Type} (c : Prop) [Decidable c] (x : α) :
    ((if c then some x else none).isSome = true) ↔ c := by
  by_cases h : c <;> simp [h]

theorem orDefault_eq_iff (o : Option String) (d v : String) (hv : v ≠ "")
    (hd : v ≠ d) : orDefault o d = v ↔ o = some v := by
  cases o with
  | none => simp [orDefault, Ne.symm hd]
  | some s =>
    by_cases hs : s = ""
    · subst hs
      simp [orDefault, Ne.symm hd, Ne.symm hv]
    · simp [orDefault, hs]

/-! ## Parser fixtures -/

def vlessTlsUrl : JsUrl :=
  { scheme := "vless", username := "u", hostname := "example.com", port := "443",
    params := fun k => if k = "security" then some "tls" else none }

def trojanRealityUrl : JsUrl :=
  { scheme := "trojan", username := "pw", hostname := "example.com",
    port := "443",
    params := fun k => if k = "security" then some "reality" else none }

def ssBadUrl : JsUrl :=
  { scheme := "ss", username := "!!!", hostname := "h", port := "1",
    params := fun _ => none }

def socksUrl : JsUrl :=
  { scheme := "socks5", username := "u", hostname := "h", port := "1",
    params := fun _ => none }

/-- Claim C6 (amended): for vless URIs the TLS parameter set is populated iff
the `security` query value is exactly "tls", the reality set iff it is
"reality", and the ws/grpc/http sub-settings iff the `type` query value names
that transport; but for trojan URIs the parser populates the TLS parameter
set unconditionally — whatever the `security` value — and never populates
reality or transport sub-settings. -/
theorem c6_stream_population (url : JsUrl) :
    (∃ ss, (parseVless url).streamSettings = some ss
      ∧ (ss.tlsSettings.isSome = true ↔ url.params "security" = some "tls")
      ∧ (ss.realitySettings.isSome = true ↔
          url.params "security" = some "reality")
      ∧ (ss.wsSettings.isSome = true ↔ url.params "type" = some "ws")
      ∧ (ss.grpcSettings.isSome = true ↔ url.params "type" = some "grpc")
      ∧ (ss.httpSettings.isSome = true ↔
          (url.params "type" = some "http" ∨ url.params "type" = some "h2")))
    ∧ (∃ ss, (parseTrojan url).streamSettings = some ss
      ∧ ss.tlsSettings.isSome = true ∧ ss.realitySettings = none
      ∧ ss.wsSettings = none ∧ ss.grpcSettings = none
      ∧ ss.httpSettings = none) := by
  constructor
  · refine ⟨_, rfl, ?_, ?_, ?_, ?_, ?_⟩
    · exact (isSome_ite_iff _ _).trans
        (orDefault_eq_iff (url.params "security") "none" "tls" (by decide)
          (by decide))
    · exact (isSome_ite_iff _ _).trans
        (orDefault_eq_iff (url.params "security") "none" "reality" (by decide)
          (by decide))
    · exact (isSome_ite_iff _ _).trans
        (orDefault_eq_iff (url.params "type") "tcp" "ws" (by decide)
          (by decide))
    · exact (isSome_ite_iff _ _).trans
        (orDefault_eq_iff (url.params "type") "tcp" "grpc" (by decide)
          (by decide))
    · exact (isSome_ite_iff _ _).trans
        (or_congr
          (orDefault_eq_iff (url.params "type") "tcp" "http" (by decide)
            (by decide))
          (orDefault_eq_iff (url.params "type") "tcp" "h2" (by decide)
            (by decide)))
  · exact ⟨_, rfl, rfl, rfl, rfl, rfl, rfl⟩

/-- Witness for C6's amended statement: a vless URI with `security=tls` gets
a TLS parameter set and no reality parameter set. -/
theorem c6_stream_population_witness :
    ∃ ss, (parseVless vlessTlsUrl).streamSettings = some ss
      ∧ ss.tlsSettings.isSome = true ∧ ss.realitySettings.isSome = false := by
  obtain ⟨ss, hss, htls, hreal, _⟩ := (c6_stream_population vlessTlsUrl).1
  refine ⟨ss, hss, htls.mpr (by decide), ?_⟩
  cases h : ss.realitySettings.isSome
  · rfl
  · exact absurd (hreal.mp h) (by decide)

/-- Counterexample to C6 as stated: a trojan URI whose `security` query value
is "reality" (not "tls") still gets a populated TLS parameter set, and no
reality parameter set. -/
theorem c6_claim_counterexample :
    trojanRealityUrl.params "security" = some "reality"
    ∧ ∃ ss, (parseTrojan trojanRealityUrl).streamSettings = some ss
        ∧ ss.security = "reality" ∧ ss.tlsSettings.isSome = true
        ∧ ss.realitySettings = none := ⟨rfl, _, rfl, rfl, rfl, rfl⟩

/-- Claim C7 (amended): parseProxyLink dispatches each of the five supported
schemes to its protocol parser — vless and trojan always return a descriptor
of that protocol, vmess and ss/shadowsocks return one exactly when their
base64/JSON payload decodes and otherwise propagate that parser's decode
error — and any other scheme always fails with the named
unsupported-protocol error, never returning a descriptor. -/
theorem c7_dispatch (link : String) (url : JsUrl)
    (jsonEnv : String → Option VmessJson) :
    (url.scheme = "vless" →
      parseProxyLink link url jsonEnv = Except.ok (parseVless url)
      ∧ (parseVless url).protocol = "vless")
    ∧ (url.scheme = "trojan" →
      parseProxyLink link url jsonEnv = Except.ok (parseTrojan url)
      ∧ (parseTrojan url).protocol = "trojan")
    ∧ (url.scheme = "vmess" →
      parseProxyLink link url jsonEnv = parseVmess link jsonEnv
      ∧ ∀ ob, parseVmess link jsonEnv = Except.ok ob → ob.protocol = "vmess")
    ∧ ((url.scheme = "shadowsocks" ∨ url.scheme = "ss") →
      parseProxyLink link url jsonEnv = parseShadowsocks url
      ∧ ∀ ob, parseShadowsocks url = Except.ok ob →
          ob.protocol = "shadowsocks")
    ∧ (url.scheme ≠ "vless" → url.scheme ≠ "vmess" → url.scheme ≠ "trojan" →
       url.scheme ≠ "shadowsocks" → url.scheme ≠ "ss" →
      parseProxyLink link url jsonEnv =
        Except.error ("Unsupported protocol: " ++ url.scheme)) := by
  refine ⟨?_, ?_, ?_, ?_, ?_⟩
  · intro h
    exact ⟨by simp [parseProxyLink, h], rfl⟩
  · intro h
    exact ⟨by simp [parseProxyLink, h], rfl⟩
  · intro h
    refine ⟨by simp [parseProxyLink, h], ?_⟩
    intro ob hob
    rcases h1 : jsAtob (jsReplaceFirst link "vmess://") with _ | s <;>
      simp only [parseVmess, h1] at hob
    · exact absurd hob (by simp)
    · rcases h2 : jsonEnv s with _ | cfg <;> simp only [h2] at hob
      · exact absurd hob (by simp)
      · injection hob with hok
        rw [← hok]
  · intro h
    refine ⟨?_, ?_⟩
    · rcases h with h | h <;> simp [parseProxyLink, h]
    · intro ob hob
      rcases h1 : jsAtob url.username with _ | s <;>
        simp only [parseShadowsocks, h1] at hob
      · exact absurd hob (by simp)
      · injection hob with hok
        rw [← hok]
  · intro h1 h2 h3 h4 h5
    simp only [parseProxyLink]
    rw [if_neg h1, if_neg h2, if_neg h3, if_neg (fun hc => hc.elim h4 h5)]

/-- Witness for C7: an unsupported scheme fails with the named error. -/
theorem c7_dispatch_witness :
    parseProxyLink "socks5://u@h:1" socksUrl (fun _ => none) =
      Except.error ("Unsupported protocol: " ++ "socks5") := by
  exact (c7_dispatch "socks5://u@h:1" socksUrl (fun _ => none)).2.2.2.2
    (by decide) (by decide) (by decide) (by decide) (by decide)

/-- Counterexample to C7 as stated: an ss URI whose userinfo is not valid
base64 is dispatched to the shadowsocks parser but fails with the atob
decode error — no descriptor and not the unsupported-protocol error. -/
theorem c7_claim_counterexample :
    ssBadUrl.scheme = "ss"
    ∧ parseProxyLink "ss://!!!@h:1" ssBadUrl (fun _ => none) =
        Except.error "InvalidCharacterError: atob failed" := ⟨rfl, rfl⟩

end YtChecker
